import Mathlib

set_option maxRecDepth 100000

/-!
Verification of the Scoratis journaling backend (Flask + SQLite).

This file gives a shallow embedding, in Lean 4, of the parts of the code that
the specification's claims are about:

* the rule-based fallback response generator (`generate_fallback` in
  `main_professional.py`),
* the YouTube duration parser (`parse_youtube_duration`),
* the persistence layer (`database.py`): journals, folders, conversations,
  chat messages and video history, modelled as pure state-passing functions
  over a `DB` record that mirrors the SQLite schema created by
  `init_database`,
* the chat, clear-memory, video-search and journal-share handlers of
  `main_professional.py`, modelled over a `ServerState` that also carries the
  in-memory `conversation_memory` dictionary.

External effects are made explicit: SQL `CURRENT_TIMESTAMP` becomes a logical
clock on `DB`, `AUTOINCREMENT` becomes per-table counters, the random share
token (`secrets.token_urlsafe`) and the two provider clients (Gemini,
YouTube) become parameters.
-/

/-! ## Generic string helpers (Python `lower`, `strip`, `in`) -/

/-- Characters treated as whitespace by Python's default `str.strip`. -/
def isSpaceChar (c : Char) : Bool :=
  c == ' ' || c == '\t' || c == '\n' || c == '\r' || c == '\x0b' || c == '\x0c'

/-- Python `str.lower` (ASCII fragment, which covers every string the code compares). -/
def lowerStr (s : String) : String := ⟨s.data.map Char.toLower⟩

/-- Python `str.strip` with no argument: drop leading and trailing whitespace. -/
def trimStr (s : String) : String :=
  ⟨((s.data.dropWhile isSpaceChar).reverse.dropWhile isSpaceChar).reverse⟩

/-- List-prefix test used to implement substring containment. -/
def isPre : List Char → List Char → Bool
  | [], _ => true
  | _ :: _, [] => false
  | a :: as, b :: bs => a == b && isPre as bs

/-- Containment of `needle` in `hay`, Python's `needle in hay` on strings. -/
def subList (needle : List Char) : List Char → Bool
  | [] => needle.isEmpty
  | c :: rest => isPre needle (c :: rest) || subList needle rest

/-- Python `needle in hay` for strings. -/
def subStrOf (needle hay : String) : Bool := subList needle.data hay.data

/-- Python `any(word in hay for word in needles)`. -/
def anySub (needles : List String) (hay : String) : Bool :=
  needles.any (fun n => subStrOf n hay)

/-- Number of occurrences of the character `?` in a string. -/
def countQ (s : String) : Nat := s.data.count '?'

/-- The final character of a string, if any. -/
def lastCh (s : String) : Option Char := s.data.reverse.head?

/-! ## The Fallback Response Generator

`generate_fallback` in `main_professional.py`, lines 256-294: an ordered
cascade of substring/length tests over the lowercased, stripped message,
returning the first matching template.  The two templates marked in the
source with an f-string interpolation echo `user_message` verbatim. -/

def generate_fallback (user_message : String) : String :=
  let msg_lower := trimStr (lowerStr user_message)
  if anySub ["everything", "nothing", "all of it", "all", "i am not understanding anything", "not understanding"] msg_lower then
    "Feeling overwhelmed? Let's start with something tiny and concrete. Picture a door opening - that's rotation! What makes a door easy or hard to push open?"
  else if msg_lower.length > 30 && anySub ["force", "gravity", "spin", "rotation", "centrifugal", "weight"] msg_lower then
    "Excellent thinking! You mentioned forces - that's exactly the right track. Now here's a key question: if you spin a coin on a table, what do you think slows it down and makes it stop?"
  else if anySub ["don't know", "dont know", "idk", "confused", "no idea"] msg_lower then
    if subStrOf "torque" msg_lower || subStrOf "toque" msg_lower then
      "You're unsure what torque means. Quick anchor: torque is the 'twist' effect of a force—pushing farther from the pivot makes rotation easier. If you push a door near the hinges vs the handle, where does the same push create more rotation?"
    else if anySub ["rotation", "spin", "turn"] msg_lower then
      "You're feeling lost about rotation. Here's a simple start: rotation is just spinning around a center point, like a wheel or door. What happens when you try to stop a spinning coin with your finger?"
    else
      "That's completely normal when learning something new! Let's try a concrete example: imagine pushing a door. Would it be easier to push near the hinges or near the handle?"
  else if subStrOf "toque" msg_lower && !(subStrOf "torque" msg_lower) then
    "I'm assuming you meant 'torque' (the twist-force that causes rotation). Torque is like the 'oomph' that makes things spin. Are you asking how torque differs from regular force?"
  else if msg_lower.length < 15 || ["rotation", "physics", "hard", "difficult", "clear", "small", "tiny"].contains msg_lower then
    "You said '" ++ user_message ++ "'. Let's connect this to something you can picture. Think of a spinning coin - what do you think makes it start spinning, and what makes it wobble and fall over?"
  else if anySub ["teach me", "learn", "start", "beginning", "begenning"] msg_lower then
    "Perfect! You want to learn from the beginning. Let's start with the most basic question: when you open a door, do you push near the hinges or near the handle? Why do you think that is?"
  else if subStrOf "space" msg_lower && (subStrOf "torque" msg_lower || subStrOf "rotation" msg_lower) then
    "You're asking about torque vs space concepts. Torque is about causing rotation; space is where things exist and move. Are you wondering how rotational motion works in different environments?"
  else
    "I hear you saying '" ++ user_message ++ "'. Let's make this super concrete: imagine you're trying to loosen a tight jar lid. Where do you grip it, and how do you twist? What makes it easier or harder?"

/-! ## The YouTube duration parser

`parse_youtube_duration` in `main_professional.py`, lines 568-586.  The
regex `PT(?:(\d+)H)?(?:(\d+)M)?(?:(\d+)S)?` anchored at the start is
modelled directly: the literal `PT`, then for each unit an optional maximal
digit run that is consumed only when immediately followed by that unit's
letter (the regex backtracks and skips the group otherwise). -/

def isDigitCh (c : Char) : Bool := '0' ≤ c && c ≤ '9'

def digitsToNat (ds : List Char) : Nat :=
  ds.foldl (fun n c => 10 * n + (c.toNat - '0'.toNat)) 0

/-- Match one optional regex group `(?:(\d+)X)?` at the front of `cs`. -/
def matchComp (letter : Char) (cs : List Char) : Option Nat × List Char :=
  let ds := cs.takeWhile isDigitCh
  match ds, cs.drop ds.length with
  | [], _ => (none, cs)
  | _ :: _, r :: rs => if r == letter then (some (digitsToNat ds), rs) else (none, cs)
  | _ :: _, [] => (none, cs)

/-- Python `str(n)` for the zero-padded format `02d`. -/
def pad2 (n : Nat) : String := if n < 10 then "0" ++ Nat.repr n else Nat.repr n

def parse_youtube_duration (duration : String) : String :=
  match duration.data with
  | 'P' :: 'T' :: rest =>
    let rh := matchComp 'H' rest
    let rm := matchComp 'M' rh.2
    let rs := matchComp 'S' rm.2
    let hours := rh.1.getD 0
    let minutes := rm.1.getD 0
    let seconds := rs.1.getD 0
    if hours > 0 then
      Nat.repr hours ++ ":" ++ pad2 minutes ++ ":" ++ pad2 seconds
    else
      Nat.repr minutes ++ ":" ++ pad2 seconds
  | _ => "0:00"

/-! ## The persistence layer (`database.py`)

The SQLite schema from `init_database` (lines 11-128) becomes one record per
table row.  SQL `NULL` becomes `Option`, `CURRENT_TIMESTAMP` reads the
logical clock `DB.clock` (bumped once per mutating statement), and each
table's `AUTOINCREMENT` primary key becomes a `next_..._id` counter. -/

structure Journal where
  id : Nat
  title : String
  content : String
  tags : Option (List String)
  folder_id : Option Nat
  user_id : Nat
  is_shared : Bool
  share_token : Option String
  created_at : Nat
  updated_at : Nat
deriving DecidableEq

structure Folder where
  id : Nat
  name : String
  description : Option String
  color : String
  user_id : Nat
  created_at : Nat
  updated_at : Nat
deriving DecidableEq

structure Conversation where
  id : Nat
  session_id : String
  title : Option String
  user_id : Nat
  is_deleted : Bool
  deleted_at : Option Nat
  created_at : Nat
  updated_at : Nat
deriving DecidableEq

structure ChatMessage where
  id : Nat
  conversation_id : Nat
  session_id : String
  sender : String
  message : String
  timestamp : Nat
deriving DecidableEq

structure VideoHistoryRow where
  id : Nat
  video_id : String
  title : String
  channel : String
  thumbnail_url : String
  search_query : String
  user_id : Nat
  watched_at : Nat
deriving DecidableEq

structure DB where
  journals : List Journal
  folders : List Folder
  conversations : List Conversation
  chat_messages : List ChatMessage
  video_history : List VideoHistoryRow
  next_journal_id : Nat
  next_folder_id : Nat
  next_conversation_id : Nat
  next_message_id : Nat
  next_video_id : Nat
  clock : Nat
deriving DecidableEq

def emptyDB : DB :=
  { journals := [], folders := [], conversations := [], chat_messages := [],
    video_history := [], next_journal_id := 1, next_folder_id := 1,
    next_conversation_id := 1, next_message_id := 1, next_video_id := 1, clock := 0 }

/-- A SQL `UPDATE ... SET ... WHERE p`: apply `f` to every row satisfying `p`. -/
def updRows {α : Type} (p : α → Bool) (f : α → α) : List α → List α :=
  List.map (fun x => if p x then f x else x)

/-- DatabaseManager.update_journal (database.py lines 196-222): a partial
update that adds a `SET` clause only for each argument that is not `None`;
with no non-`None` argument it returns `False` without executing any SQL,
otherwise it runs one `UPDATE ... WHERE id = ?` and returns `True`. -/
def update_journal (db : DB) (journal_id : Nat) (title content : Option String)
    (tags : Option (List String)) (folder_id : Option Nat) : Bool × DB :=
  if title.isNone && content.isNone && tags.isNone && folder_id.isNone then
    (false, db)
  else
    (true,
     { db with
       journals := updRows (fun j => j.id == journal_id)
         (fun j =>
           { j with
             title := title.getD j.title,
             content := content.getD j.content,
             tags := match tags with | some v => some v | none => j.tags,
             folder_id := match folder_id with | some v => some v | none => j.folder_id,
             updated_at := db.clock }) db.journals,
       clock := db.clock + 1 })

/-- DatabaseManager.share_journal (database.py lines 230-240): the random
token from `secrets.token_urlsafe(16)` is passed in as `share_token`; the
`UPDATE` flips `is_shared` and stores the token on the matching row (if
any), and the token is returned regardless of how many rows matched. -/
def share_journal (db : DB) (journal_id user_id : Nat) (share_token : String) : String × DB :=
  (share_token,
   { db with
     journals := updRows (fun j => j.id == journal_id && j.user_id == user_id)
       (fun j => { j with is_shared := !j.is_shared, share_token := some share_token,
                          updated_at := db.clock }) db.journals,
     clock := db.clock + 1 })

/-- DatabaseManager.delete_folder (database.py lines 288-295): first null the
folder reference of every journal in the folder, then delete the folder. -/
def delete_folder (db : DB) (folder_id user_id : Nat) : DB :=
  { db with
    journals := updRows (fun j => j.folder_id == some folder_id)
      (fun j => { j with folder_id := none }) db.journals,
    folders := db.folders.filter (fun f => !(f.id == folder_id && f.user_id == user_id)),
    clock := db.clock + 2 }

/-- DatabaseManager.add_video_to_history (database.py lines 298-305).  The
statement is `INSERT OR REPLACE`, but the `video_history` table created by
`init_database` (lines 59-71) has no uniqueness constraint other than its
`AUTOINCREMENT` primary key `id`, which the statement does not supply; no
conflict can ever arise, so the statement always inserts a fresh row. -/
def add_video_to_history (db : DB)
    (video_id title channel thumbnail_url search_query : String) (user_id : Nat) : DB :=
  { db with
    video_history := db.video_history ++
      [{ id := db.next_video_id, video_id := video_id, title := title, channel := channel,
         thumbnail_url := thumbnail_url, search_query := search_query, user_id := user_id,
         watched_at := db.clock }],
    next_video_id := db.next_video_id + 1,
    clock := db.clock + 1 }

/-- The `SELECT id FROM conversations WHERE session_id = ? AND user_id = ?`
lookup used by get_or_create_conversation (first matching row). -/
def findConv (db : DB) (session_id : String) (user_id : Nat) : Option Conversation :=
  db.conversations.find? (fun c => c.session_id == session_id && c.user_id == user_id)

/-- DatabaseManager.create_conversation (database.py lines 318-324). -/
def create_conversation (db : DB) (session_id : String) (user_id : Nat)
    (title : Option String) : Nat × DB :=
  (db.next_conversation_id,
   { db with
     conversations := db.conversations ++
       [{ id := db.next_conversation_id, session_id := session_id, title := title,
          user_id := user_id, is_deleted := false, deleted_at := none,
          created_at := db.clock, updated_at := db.clock }],
     next_conversation_id := db.next_conversation_id + 1,
     clock := db.clock + 1 })

/-- DatabaseManager.get_or_create_conversation (database.py lines 326-336). -/
def get_or_create_conversation (db : DB) (session_id : String) (user_id : Nat) : Nat × DB :=
  match findConv db session_id user_id with
  | some c => (c.id, db)
  | none => create_conversation db session_id user_id none

/-- The `UPDATE conversations SET updated_at = CURRENT_TIMESTAMP WHERE id = ?`
statement of update_conversation_activity. -/
def set_conv_updated_at (db : DB) (conversation_id : Nat) : DB :=
  { db with
    conversations := updRows (fun c => c.id == conversation_id)
      (fun c => { c with updated_at := db.clock }) db.conversations,
    clock := db.clock + 1 }

/-- The `UPDATE conversations SET title = ? WHERE id = ?` statement of
update_conversation_activity. -/
def set_conv_title (db : DB) (conversation_id : Nat) (t : String) : DB :=
  { db with
    conversations := updRows (fun c => c.id == conversation_id)
      (fun c => { c with title := some t }) db.conversations,
    clock := db.clock + 1 }

/-- Python truthiness of the stored `title` column: `NULL` and the empty
string are falsy (`not result[0]['title']`). -/
def title_falsy : Option String → Bool
  | none => true
  | some t => t == ""

/-- The derived title: `user_message[:50] + ('...' if len(user_message) > 50 else '')`. -/
def derive_title (user_message : String) : String :=
  ⟨user_message.data.take 50⟩ ++ (if user_message.length > 50 then "..." else "")

/-- DatabaseManager.update_conversation_activity (database.py lines 355-366):
bump `updated_at`; then, when a truthy user message is supplied and the
stored title is falsy, derive and store the title. -/
def update_conversation_activity (db : DB) (conversation_id : Nat)
    (user_message : Option String) : DB :=
  let db1 := set_conv_updated_at db conversation_id
  match user_message with
  | none => db1
  | some m =>
    if m == "" then db1
    else
      match db1.conversations.find? (fun c => c.id == conversation_id) with
      | none => db1
      | some c =>
        if title_falsy c.title then set_conv_title db1 conversation_id (derive_title m)
        else db1

/-- DatabaseManager.add_chat_message (database.py lines 338-353): resolve or
create the conversation, insert the message row, then run
update_conversation_activity with the message when the sender is `user`. -/
def add_chat_message (db : DB) (session_id sender message : String) (user_id : Nat) : Nat × DB :=
  let r := get_or_create_conversation db session_id user_id
  let conversation_id := r.1
  let db1 := r.2
  let db2 :=
    { db1 with
      chat_messages := db1.chat_messages ++
        [{ id := db1.next_message_id, conversation_id := conversation_id,
           session_id := session_id, sender := sender, message := message,
           timestamp := db1.clock }],
      next_message_id := db1.next_message_id + 1,
      clock := db1.clock + 1 }
  (conversation_id,
   update_conversation_activity db2 conversation_id
     (if sender == "user" then some message else none))

/-- The rows admitted by get_conversation_history's `WHERE` clause
(database.py lines 379-401): the default listing keeps the owner's
non-trashed conversations, `include_deleted=True` keeps only trashed ones.
The endpoint additionally orders by `updated_at DESC` and truncates to a
limit; the membership claims below are about the `WHERE` filter. -/
def get_conversation_history (db : DB) (user_id : Nat) (include_deleted : Bool) :
    List Conversation :=
  db.conversations.filter
    (fun c => c.user_id == user_id && (if include_deleted then c.is_deleted else !c.is_deleted))

/-- DatabaseManager.get_conversation_messages (database.py lines 368-377):
messages of the session joined against a conversation of the owner. -/
def get_conversation_messages (db : DB) (session_id : String) (user_id : Nat) :
    List ChatMessage :=
  db.chat_messages.filter (fun m =>
    m.session_id == session_id &&
    db.conversations.any (fun c => c.id == m.conversation_id && c.user_id == user_id))

/-- DatabaseManager.delete_conversation (database.py lines 418-433):
`permanent=True` deletes the message rows (by conversation id alone) and the
conversation row (guarded by owner); otherwise one `UPDATE` marks the row
trashed and stamps `deleted_at`. -/
def delete_conversation (db : DB) (conversation_id user_id : Nat) (permanent : Bool) : DB :=
  if permanent then
    { db with
      chat_messages := db.chat_messages.filter (fun m => !(m.conversation_id == conversation_id)),
      conversations := db.conversations.filter
        (fun c => !(c.id == conversation_id && c.user_id == user_id)),
      clock := db.clock + 2 }
  else
    { db with
      conversations := updRows (fun c => c.id == conversation_id && c.user_id == user_id)
        (fun c => { c with is_deleted := true, deleted_at := some db.clock,
                           updated_at := db.clock }) db.conversations,
      clock := db.clock + 1 }

/-- DatabaseManager.restore_conversation (database.py lines 435-443). -/
def restore_conversation (db : DB) (conversation_id user_id : Nat) : DB :=
  { db with
    conversations := updRows (fun c => c.id == conversation_id && c.user_id == user_id)
      (fun c => { c with is_deleted := false, deleted_at := none,
                         updated_at := db.clock }) db.conversations,
    clock := db.clock + 1 }

/-! ## The server layer (`main_professional.py`)

`conversation_memory` (line 242) is a process-wide dict from session id to a
list of context lines; it is modelled as an association list.  The Gemini
client is a parameter: `none` models an absent client (`get_genai()` returned
`None`), `some (Except.ok t)` a provider call returning text `t`, and
`some (Except.error e)` a provider call raising an exception. -/

abbrev Memory : Type := List (String × List String)

def memLookup (m : Memory) (k : String) : Option (List String) :=
  ((List.find? (fun p => p.1 == k)) m).map (fun p => p.2)

def memSet (m : Memory) (k : String) (v : List String) : Memory :=
  match memLookup m k with
  | some _ => updRows (fun p => p.1 == k) (fun p => (p.1, v)) m
  | none => m ++ [(k, v)]

def memErase (m : Memory) (k : String) : Memory :=
  m.filter (fun p => !(p.1 == k))

structure ServerState where
  db : DB
  conversation_memory : Memory
deriving DecidableEq

inductive ChatEvent where
  | persist (sender message : String)
  | provider_call
deriving DecidableEq

inductive ChatOutcome where
  | badRequest
  | reply (text source : String)
deriving DecidableEq

/-- The chat handler (`main_professional.py` lines 244-356).  Mirrors the
code's statement order; the returned event list records, in execution order,
each `db.add_chat_message` call and the provider invocation, so that "the
user message is persisted before any provider call" is a statement about the
trace.  With `genai = none` (lines 296-298) the handler returns the fallback
reply without touching the database or the memory.  With a configured
client, the user message is saved (line 309), the rolling window is extended
and clipped to its last 10 entries (lines 312-316), the provider is called
(line 338), and then either the AI reply (line 344) or, under the `except`
branch, the fallback reply (line 355) is saved. -/
def chat (genai : Option (Except String String)) (st : ServerState)
    (message session_id : String) : ChatOutcome × ServerState × List ChatEvent :=
  let user_message := trimStr message
  if user_message == "" then (ChatOutcome.badRequest, st, [])
  else
    match genai with
    | none => (ChatOutcome.reply (generate_fallback user_message) "fallback", st, [])
    | some behavior =>
      let mem0 :=
        match memLookup st.conversation_memory session_id with
        | none => memSet st.conversation_memory session_id []
        | some _ => st.conversation_memory
      let db1 := (add_chat_message st.db session_id "user" user_message 1).2
      let hist1 := (memLookup mem0 session_id).getD [] ++ ["Human: " ++ user_message]
      let hist2 := if hist1.length > 10 then hist1.drop (hist1.length - 10) else hist1
      let mem1 := memSet mem0 session_id hist2
      match behavior with
      | Except.ok text =>
        let db2 := (add_chat_message db1 session_id "ai" text 1).2
        let mem2 := memSet mem1 session_id (hist2 ++ ["Scoratis: " ++ text])
        (ChatOutcome.reply text "ai", ⟨db2, mem2⟩,
         [ChatEvent.persist "user" user_message, ChatEvent.provider_call,
          ChatEvent.persist "ai" text])
      | Except.error _ =>
        let fb := generate_fallback user_message
        let db2 := (add_chat_message db1 session_id "ai" fb 1).2
        (ChatOutcome.reply fb "fallback", ⟨db2, mem1⟩,
         [ChatEvent.persist "user" user_message, ChatEvent.provider_call,
          ChatEvent.persist "ai" fb])

/-- The clear-chat handler (`main_professional.py` lines 358-371): delete the
session's entry from `conversation_memory` if present; the database is not
touched (the handler deliberately does not call `db.clear_conversation`). -/
def clear_chat (st : ServerState) (session_id : String) : ServerState :=
  ⟨st.db, memErase st.conversation_memory session_id⟩

/-! ## Video search (`main_professional.py` lines 438-553) -/

structure Video where
  video_id : String
  title : String
  channel : String
  thumbnail : String
  description : String
  published_at : String
  duration : String
  view_count : String
deriving DecidableEq

/-- A raw item of the provider response, already joined with its details
(statistics and contentDetails) as the code does via `video_details`. -/
structure RawVideoItem where
  videoId : String
  title : String
  channelTitle : String
  thumbnail_url : String
  description : String
  publishedAt : String
  durationToken : String
  viewCountRaw : String
deriving DecidableEq

inductive SearchOutcome where
  | badRequest
  | results (videos : List Video) (source : String)
  | httpError (status : Nat) (message : String)
deriving DecidableEq

inductive ProviderFailure where
  | quotaExceeded
  | keyInvalid
  | forbidden
  | other (message : String)
deriving DecidableEq

/-- The fixed sample list of lines 451-472, with the query interpolated. -/
def sample_videos (query : String) : List Video :=
  [{ video_id := "dQw4w9WgXcQ",
     title := "Educational Content: " ++ query ++ " - Introduction",
     channel := "Educational Channel",
     thumbnail := "https://via.placeholder.com/320x180/8A2BE2/FFFFFF?text=Video+1",
     description := "Learn about " ++ query ++ " in this comprehensive introduction.",
     published_at := "2024-01-01T00:00:00Z", duration := "10:30", view_count := "1.2M" },
   { video_id := "dQw4w9WgXcQ",
     title := "Advanced " ++ query ++ " Techniques",
     channel := "Science Academy",
     thumbnail := "https://via.placeholder.com/320x180/00BFFF/FFFFFF?text=Video+2",
     description := "Dive deeper into " ++ query ++ " with advanced concepts.",
     published_at := "2024-01-02T00:00:00Z", duration := "15:45", view_count := "850K" }]

/-- Description truncation of line 523. -/
def truncate_description (d : String) : String :=
  if d.length > 200 then ⟨d.data.take 200⟩ ++ "..." else d

/-- Formatting of one provider item (lines 505-528).  `format_view_count`
uses Python floating-point division and `:.1f` rounding and is not modelled;
the raw count string is carried through unchanged (no claim depends on it). -/
def format_video (item : RawVideoItem) : Video :=
  { video_id := item.videoId, title := item.title, channel := item.channelTitle,
    thumbnail := item.thumbnail_url,
    description := truncate_description item.description,
    published_at := item.publishedAt,
    duration := parse_youtube_duration item.durationToken,
    view_count := item.viewCountRaw }

/-- The video-search handler (`main_professional.py` lines 438-553).
`youtube_client = none` models an absent client; `some (Except.error e)`
models a provider call raising.  The `except` branch maps the error text to
HTTP statuses: quota → 429, invalid key/forbidden → 401, otherwise 500.  The
best-effort `db.add_video_to_history` of the success path swallows its own
errors and does not affect the response; it is not part of this result. -/
def search_videos (youtube_client : Option (Except ProviderFailure (List RawVideoItem)))
    (q : String) (max_results_arg : Nat) : SearchOutcome :=
  let query := trimStr q
  let max_results := min max_results_arg 25
  if query == "" then SearchOutcome.badRequest
  else
    match youtube_client with
    | none => SearchOutcome.results ((sample_videos query).take max_results) "sample"
    | some (Except.ok items) => SearchOutcome.results (items.map format_video) "youtube"
    | some (Except.error ProviderFailure.quotaExceeded) =>
      SearchOutcome.httpError 429 "YouTube API quota exceeded. Please try again later."
    | some (Except.error ProviderFailure.keyInvalid) =>
      SearchOutcome.httpError 401 "Invalid YouTube API key."
    | some (Except.error ProviderFailure.forbidden) =>
      SearchOutcome.httpError 401 "Invalid YouTube API key."
    | some (Except.error (ProviderFailure.other msg)) =>
      SearchOutcome.httpError 500 ("Failed to fetch videos: " ++ msg)

inductive ShareOutcome where
  | ok (share_token share_url : String)
deriving DecidableEq

/-- The share endpoint (`main_professional.py` lines 167-179): call
db.share_journal with the default owner 1 and answer 200 with the token and
a constructed URL, whether or not any journal row matched. -/
def toggle_journal_sharing (db : DB) (journal_id : Nat) (fresh_token host_url : String) :
    ShareOutcome × DB :=
  let r := share_journal db journal_id 1 fresh_token
  (ShareOutcome.ok r.1 (host_url ++ "shared/" ++ r.1), r.2)

/-- The server state at process start: a fresh database and an empty
conversation-memory dict. -/
def initialState : ServerState := ⟨emptyDB, []⟩

/-! ## Concrete states and auxiliary definitions used by the claims -/

/-- Two history-add calls for video id "abc123" and owner 1, with different
metadata, starting from the fresh database. -/
def db_after_two_adds : DB :=
  add_video_to_history
    (add_video_to_history emptyDB "abc123" "Intro to Torque" "ChannelA" "thumbA" "torque" 1)
    "abc123" "Torque Revisited" "ChannelB" "thumbB" "rotation" 1

/-- A one-journal database for the C9 witness: journal 1 sits in folder 7. -/
def dbC9 : DB :=
  { emptyDB with
    journals := [{ id := 1, title := "Old", content := "Body", tags := none,
                   folder_id := some 7, user_id := 1, is_shared := false,
                   share_token := none, created_at := 0, updated_at := 0 }],
    next_journal_id := 2 }

/-- A concrete conversation and database for the C6 witness. -/
def convC6 : Conversation :=
  { id := 1, session_id := "s1", title := some "Hello", user_id := 1,
    is_deleted := false, deleted_at := none, created_at := 0, updated_at := 0 }

def dbC6 : DB :=
  { emptyDB with
    conversations := [convC6],
    chat_messages := [{ id := 1, conversation_id := 1, session_id := "s1",
                        sender := "user", message := "Hello", timestamp := 0 }],
    next_conversation_id := 2, next_message_id := 2, clock := 1 }

/-- Conversation-id well-formedness maintained by the embedding: the SQL
primary key makes ids pairwise distinct, and AUTOINCREMENT keeps every
existing id below the next one to be assigned. -/
def conv_ids_ok (db : DB) : Prop :=
  db.conversations.Pairwise (fun a b => a.id ≠ b.id) ∧
  ∀ x ∈ db.conversations, x.id < db.next_conversation_id

/-- The conversation row inserted by create_conversation for a new session. -/
def new_conv (db : DB) (sid : String) (u : Nat) : Conversation :=
  { id := db.next_conversation_id, session_id := sid, title := none, user_id := u,
    is_deleted := false, deleted_at := none, created_at := db.clock, updated_at := db.clock }

/-- The database after the message-row INSERT of add_chat_message. -/
def with_msg (db : DB) (cid : Nat) (sid sender msg : String) : DB :=
  { db with
    chat_messages := db.chat_messages ++
      [{ id := db.next_message_id, conversation_id := cid, session_id := sid,
         sender := sender, message := msg, timestamp := db.clock }],
    next_message_id := db.next_message_id + 1, clock := db.clock + 1 }

/-- The database after create_conversation inserted a row for a new session. -/
def db_after_create (db : DB) (sid : String) (u : Nat) : DB :=
  { db with
    conversations := db.conversations ++ [new_conv db sid u],
    next_conversation_id := db.next_conversation_id + 1, clock := db.clock + 1 }

/-- A sequence of further add_chat_message calls on the same session, each
pair being (sender, message). -/
def fold_messages (db : DB) (sid : String) (u : Nat) : List (String × String) → DB
  | [] => db
  | p :: rest => fold_messages (add_chat_message db sid p.1 p.2 u).2 sid u rest

/-- The decimal digit characters, used to build arbitrary well-formed
duration tokens for the parser theorems. -/
def digitChar (d : Nat) : Char :=
  if d = 0 then '0' else if d = 1 then '1' else if d = 2 then '2'
  else if d = 3 then '3' else if d = 4 then '4' else if d = 5 then '5'
  else if d = 6 then '6' else if d = 7 then '7' else if d = 8 then '8' else '9'

/-- The decimal numeral of a natural number, most significant digit first —
the character sequence a provider would write for a numeric component. -/
def natDigits (n : Nat) : List Char :=
  if _h : n < 10 then [digitChar n] else natDigits (n / 10) ++ [digitChar (n % 10)]
decreasing_by omega

/-- A duration token with all three components, e.g. "PT1H2M3S". -/
def hmsToken (h m s : Nat) : String :=
  "PT" ++ ⟨natDigits h⟩ ++ "H" ++ ⟨natDigits m⟩ ++ "M" ++ ⟨natDigits s⟩ ++ "S"

/-- A duration token with hours and minutes only, e.g. "PT1H2M". -/
def hmToken (h m : Nat) : String :=
  "PT" ++ ⟨natDigits h⟩ ++ "H" ++ ⟨natDigits m⟩ ++ "M"

/-- A duration token with hours and seconds only, e.g. "PT1H3S". -/
def hsToken (h s : Nat) : String :=
  "PT" ++ ⟨natDigits h⟩ ++ "H" ++ ⟨natDigits s⟩ ++ "S"

/-- A duration token with hours only, e.g. "PT1H". -/
def hToken (h : Nat) : String := "PT" ++ ⟨natDigits h⟩ ++ "H"

/-- A duration token with minutes and seconds only, e.g. "PT5M9S". -/
def msToken (m s : Nat) : String :=
  "PT" ++ ⟨natDigits m⟩ ++ "M" ++ ⟨natDigits s⟩ ++ "S"

/-- A duration token with minutes only, e.g. "PT2M". -/
def mToken (m : Nat) : String := "PT" ++ ⟨natDigits m⟩ ++ "M"

/-- A duration token with seconds only, e.g. "PT7S". -/
def sToken (s : Nat) : String := "PT" ++ ⟨natDigits s⟩ ++ "S"

/-! ## Helper lemmas on lists -/

/-- Lookup via `find?` commutes with a map that does not change the tested predicate. -/
theorem find?_map_of_inv {α : Type} (g : α → α) (q : α → Bool)
    (hinv : ∀ a, q (g a) = q a) :
    ∀ l : List α, (l.map g).find? q = (l.find? q).map g := by
  intro l
  induction l with
  | nil => rfl
  | cons a t ih =>
    by_cases hq : q a = true
    · rw [List.map_cons, List.find?_cons_of_pos _ (by rw [hinv]; exact hq),
        List.find?_cons_of_pos _ hq]
      rfl
    · rw [List.map_cons, List.find?_cons_of_neg _ (by rw [hinv]; simpa using hq),
        List.find?_cons_of_neg _ (by simpa using hq), ih]

/-- Lookup via `find?` returns the unique element satisfying the predicate. -/
theorem find?_eq_of_mem_of_unique {α : Type} (l : List α) (q : α → Bool) (c : α)
    (hm : c ∈ l) (hq : q c = true) (huniq : ∀ x ∈ l, q x = true → x = c) :
    l.find? q = some c := by
  induction l with
  | nil => cases hm
  | cons a t ih =>
    by_cases hqa : q a = true
    · rw [List.find?_cons_of_pos _ hqa, huniq a (List.mem_cons_self a t) hqa]
    · have hct : c ∈ t := by
        rcases List.mem_cons.mp hm with rfl | h
        · exact absurd hq hqa
        · exact h
      rw [List.find?_cons_of_neg _ (by simpa using hqa)]
      exact ih hct (fun x hx hqx => huniq x (List.mem_cons_of_mem a hx) hqx)

/-- Pairwise-distinct keys give value-level uniqueness per key. -/
theorem eq_of_pairwise_ne_key {α β : Type} (f : α → β) (l : List α)
    (hp : l.Pairwise (fun a b => f a ≠ f b)) :
    ∀ x ∈ l, ∀ y ∈ l, f x = f y → x = y := by
  induction l with
  | nil => intro x hx; cases hx
  | cons a t ih =>
    intro x hx y hy hf
    rcases List.mem_cons.mp hx with rfl | hx'
    · rcases List.mem_cons.mp hy with rfl | hy'
      · rfl
      · exact absurd hf ((List.pairwise_cons.mp hp).1 y hy')
    · rcases List.mem_cons.mp hy with rfl | hy'
      · exact absurd hf.symm ((List.pairwise_cons.mp hp).1 x hx')
      · exact ih (List.pairwise_cons.mp hp).2 x hx' y hy' hf

/-- A map whose function fixes every member is the identity. -/
theorem map_eq_self_of_fix {α : Type} (h : α → α) (l : List α)
    (hfix : ∀ x ∈ l, h x = x) : l.map h = l := by
  induction l with
  | nil => rfl
  | cons a t ih =>
    rw [List.map_cons, hfix a (List.mem_cons_self a t),
      ih (fun x hx => hfix x (List.mem_cons_of_mem a hx))]

/-- The head of a reverse survives prepending on the left. -/
theorem head?_reverse_append {l₁ l₂ : List Char} {c : Char}
    (h : l₂.reverse.head? = some c) : (l₁ ++ l₂).reverse.head? = some c := by
  rw [List.reverse_append]
  cases hrev : l₂.reverse with
  | nil => rw [hrev] at h; cases h
  | cons b t =>
    rw [hrev] at h
    simpa using h

/-- String append acts as list append on the character data. -/
theorem strData_append : ∀ s t : String, (s ++ t).data = s.data ++ t.data := by
  intro ⟨a⟩ ⟨b⟩; rfl

/-- The last character of `s ++ t` is the last character of `t`, when `t` has one. -/
theorem lastCh_append {s t : String} {c : Char} (h : lastCh t = some c) :
    lastCh (s ++ t) = some c := by
  unfold lastCh at h ⊢
  rw [strData_append]
  exact head?_reverse_append h

/-- Lookup via `find?` over a filter finds nothing when the filter keeps no candidate. -/
theorem find?_filter_none {α : Type} (l : List α) (q r : α → Bool)
    (h : ∀ x, r x = true → q x = false) : (l.filter r).find? q = none := by
  induction l with
  | nil => rfl
  | cons a t ih =>
    by_cases hr : r a = true
    · rw [List.filter_cons_of_pos hr, List.find?_cons_of_neg _ (by rw [h a hr]; decide)]
      exact ih
    · rw [List.filter_cons_of_neg (by simpa using hr)]
      exact ih

/-- Lookup via `find?` ignores a filter that keeps every candidate. -/
theorem find?_filter_eq {α : Type} (l : List α) (q r : α → Bool)
    (h : ∀ x, q x = true → r x = true) : (l.filter r).find? q = l.find? q := by
  induction l with
  | nil => rfl
  | cons a t ih =>
    by_cases hq : q a = true
    · rw [List.filter_cons_of_pos (h a hq), List.find?_cons_of_pos _ hq,
        List.find?_cons_of_pos _ hq]
    · by_cases hr : r a = true
      · rw [List.filter_cons_of_pos hr, List.find?_cons_of_neg _ (by simpa using hq),
          List.find?_cons_of_neg _ (by simpa using hq), ih]
      · rw [List.filter_cons_of_neg (by simpa using hr),
          List.find?_cons_of_neg _ (by simpa using hq), ih]

/-- Every branch of the fallback generator returns a string whose final
character is a question mark. -/
theorem fallback_ends_question (m : String) : lastCh (generate_fallback m) = some '?' := by
  simp only [generate_fallback]
  repeat' split
  all_goals first
    | decide
    | (apply lastCh_append; decide)

/-! ## Claims -/

/-- Every digit character produced by digitChar passes the digit test. -/
theorem isDigitCh_digitChar (d : Nat) : isDigitCh (digitChar d) = true := by
  unfold digitChar
  repeat' split
  all_goals decide

/-- The numeric value the parser recovers from a digit character. -/
theorem digitChar_val (d : Nat) (hd : d < 10) :
    (digitChar d).toNat - '0'.toNat = d := by
  interval_cases d <;> decide

/-- The decimal numeral is never empty. -/
theorem natDigits_ne_nil (n : Nat) : natDigits n ≠ [] := by
  unfold natDigits
  split
  · simp
  · simp

/-- Every character of the decimal numeral is a digit. -/
theorem natDigits_all_digits (n : Nat) : ∀ c ∈ natDigits n, isDigitCh c = true := by
  induction n using Nat.strong_induction_on with
  | _ n ih =>
    unfold natDigits
    split
    · intro c hc
      rcases List.mem_singleton.mp hc with rfl
      exact isDigitCh_digitChar n
    · intro c hc
      rcases List.mem_append.mp hc with hc | hc
      · exact ih (n / 10) (Nat.div_lt_self (by omega) (by omega)) c hc
      · rcases List.mem_singleton.mp hc with rfl
        exact isDigitCh_digitChar _

/-- The parser's digit-run evaluation inverts the decimal printer. -/
theorem natDigits_toNat (n : Nat) : digitsToNat (natDigits n) = n := by
  induction n using Nat.strong_induction_on with
  | _ n ih =>
    unfold natDigits
    split
    · rename_i h
      show digitsToNat [digitChar n] = n
      have hv := digitChar_val n h
      unfold digitsToNat
      simp only [List.foldl]
      omega
    · rename_i h
      rw [show digitsToNat (natDigits (n / 10) ++ [digitChar (n % 10)]) =
          10 * digitsToNat (natDigits (n / 10)) +
            ((digitChar (n % 10)).toNat - '0'.toNat) from by
        unfold digitsToNat
        rw [List.foldl_append]
        rfl]
      rw [ih (n / 10) (Nat.div_lt_self (by omega) (by omega)),
        digitChar_val _ (Nat.mod_lt n (by omega))]
      omega

/-- A digit run stops exactly at the first non-digit. -/
theorem takeWhile_digits (ds : List Char) (hds : ∀ c ∈ ds, isDigitCh c = true)
    (r : Char) (hr : isDigitCh r = false) (rest : List Char) :
    (ds ++ r :: rest).takeWhile isDigitCh = ds := by
  induction ds with
  | nil => simp [List.takeWhile_cons, hr]
  | cons a t ih =>
    have ha := hds a (List.mem_cons_self a t)
    simp only [List.cons_append, List.takeWhile_cons, ha, if_true]
    rw [ih (fun c hc => hds c (List.mem_cons_of_mem a hc))]

/-- A regex group `(?:(\d+)X)?` consumes a leading digit run followed by its
unit letter and yields the run's value. -/
theorem matchComp_digits (letter : Char) (ds : List Char) (hne : ds ≠ [])
    (hds : ∀ c ∈ ds, isDigitCh c = true) (hl : isDigitCh letter = false)
    (rest : List Char) :
    matchComp letter (ds ++ letter :: rest) = (some (digitsToNat ds), rest) := by
  obtain ⟨a, t, rfl⟩ := List.exists_cons_of_ne_nil hne
  have htw : ((a :: t) ++ letter :: rest).takeWhile isDigitCh = a :: t :=
    takeWhile_digits _ hds letter hl rest
  have hdrop : ((a :: t) ++ letter :: rest).drop (a :: t).length = letter :: rest :=
    List.drop_left _ _
  simp only [matchComp, htw, hdrop]
  simp

/-- A regex group `(?:(\d+)X)?` is skipped — consuming nothing — when the
leading digit run is followed by a different unit letter. -/
theorem matchComp_skip (letter r : Char) (hrl : (r == letter) = false)
    (hr : isDigitCh r = false) (ds : List Char) (hne : ds ≠ [])
    (hds : ∀ c ∈ ds, isDigitCh c = true) (rest : List Char) :
    matchComp letter (ds ++ r :: rest) = (none, ds ++ r :: rest) := by
  obtain ⟨a, t, rfl⟩ := List.exists_cons_of_ne_nil hne
  have htw : ((a :: t) ++ r :: rest).takeWhile isDigitCh = a :: t :=
    takeWhile_digits _ hds r hr rest
  have hdrop : ((a :: t) ++ r :: rest).drop (a :: t).length = r :: rest :=
    List.drop_left _ _
  simp only [matchComp, htw, hdrop]
  simp [hrl]

/-- Reduction of parse_youtube_duration on a token that starts with "PT". -/
theorem parse_of_data (d : String) (R : List Char) (hd : d.data = 'P' :: 'T' :: R) :
    parse_youtube_duration d =
      (if (matchComp 'H' R).1.getD 0 > 0 then
        Nat.repr ((matchComp 'H' R).1.getD 0) ++ ":" ++
          pad2 ((matchComp 'M' (matchComp 'H' R).2).1.getD 0) ++ ":" ++
          pad2 ((matchComp 'S' (matchComp 'M' (matchComp 'H' R).2).2).1.getD 0)
      else
        Nat.repr ((matchComp 'M' (matchComp 'H' R).2).1.getD 0) ++ ":" ++
          pad2 ((matchComp 'S' (matchComp 'M' (matchComp 'H' R).2).2).1.getD 0)) := by
  unfold parse_youtube_duration
  rw [hd]
  rfl

/-- Character data of the full token "PT<h>H<m>M<s>S". -/
theorem hmsToken_data (h m s : Nat) :
    (hmsToken h m s).data =
      'P' :: 'T' :: (natDigits h ++ 'H' :: (natDigits m ++ 'M' :: (natDigits s ++ ['S']))) := by
  simp only [hmsToken, strData_append, List.append_assoc]
  rfl

/-- Character data of the token "PT<h>H<m>M". -/
theorem hmToken_data (h m : Nat) :
    (hmToken h m).data =
      'P' :: 'T' :: (natDigits h ++ 'H' :: (natDigits m ++ ['M'])) := by
  simp only [hmToken, strData_append, List.append_assoc]
  rfl

/-- Character data of the token "PT<h>H<s>S". -/
theorem hsToken_data (h s : Nat) :
    (hsToken h s).data =
      'P' :: 'T' :: (natDigits h ++ 'H' :: (natDigits s ++ ['S'])) := by
  simp only [hsToken, strData_append, List.append_assoc]
  rfl

/-- Character data of the token "PT<h>H". -/
theorem hToken_data (h : Nat) :
    (hToken h).data = 'P' :: 'T' :: (natDigits h ++ ['H']) := by
  simp only [hToken, strData_append, List.append_assoc]
  rfl

/-- Character data of the token "PT<m>M<s>S". -/
theorem msToken_data (m s : Nat) :
    (msToken m s).data =
      'P' :: 'T' :: (natDigits m ++ 'M' :: (natDigits s ++ ['S'])) := by
  simp only [msToken, strData_append, List.append_assoc]
  rfl

/-- Character data of the token "PT<m>M". -/
theorem mToken_data (m : Nat) :
    (mToken m).data = 'P' :: 'T' :: (natDigits m ++ ['M']) := by
  simp only [mToken, strData_append, List.append_assoc]
  rfl

/-- Character data of the token "PT<s>S". -/
theorem sToken_data (s : Nat) :
    (sToken s).data = 'P' :: 'T' :: (natDigits s ++ ['S']) := by
  simp only [sToken, strData_append, List.append_assoc]
  rfl

/-- C7: for every duration token — over arbitrary numeric components and
every combination of present components — parsing yields "H:MM:SS" when a
positive hours component is present and "M:SS" otherwise, with each absent
component defaulting to zero and minutes/seconds zero-padded to two digits
by pad2; the three examples named by the spec ("PT1H2M3S" → "1:02:03",
"PT5M9S" → "5:09", "PT0S" → "0:00") follow, and a component-free or
non-matching token falls back to "0:00". -/
theorem C7_duration :
    (∀ h m s : Nat, parse_youtube_duration (hmsToken h m s) =
      if h > 0 then Nat.repr h ++ ":" ++ pad2 m ++ ":" ++ pad2 s
      else Nat.repr m ++ ":" ++ pad2 s) ∧
    (∀ h m : Nat, parse_youtube_duration (hmToken h m) =
      if h > 0 then Nat.repr h ++ ":" ++ pad2 m ++ ":" ++ pad2 0
      else Nat.repr m ++ ":" ++ pad2 0) ∧
    (∀ h s : Nat, parse_youtube_duration (hsToken h s) =
      if h > 0 then Nat.repr h ++ ":" ++ pad2 0 ++ ":" ++ pad2 s
      else Nat.repr 0 ++ ":" ++ pad2 s) ∧
    (∀ h : Nat, parse_youtube_duration (hToken h) =
      if h > 0 then Nat.repr h ++ ":" ++ pad2 0 ++ ":" ++ pad2 0
      else Nat.repr 0 ++ ":" ++ pad2 0) ∧
    (∀ m s : Nat, parse_youtube_duration (msToken m s) =
      Nat.repr m ++ ":" ++ pad2 s) ∧
    (∀ m : Nat, parse_youtube_duration (mToken m) = Nat.repr m ++ ":" ++ pad2 0) ∧
    (∀ s : Nat, parse_youtube_duration (sToken s) = Nat.repr 0 ++ ":" ++ pad2 s) ∧
    parse_youtube_duration "PT1H2M3S" = "1:02:03" ∧
    parse_youtube_duration "PT5M9S" = "5:09" ∧
    parse_youtube_duration "PT0S" = "0:00" ∧
    parse_youtube_duration "PT" = "0:00" ∧
    parse_youtube_duration "garbage" = "0:00" := by
  refine ⟨?_, ?_, ?_, ?_, ?_, ?_, ?_, by decide, by decide, by decide, by decide, by decide⟩
  · intro h m s
    have e1 := matchComp_digits 'H' (natDigits h) (natDigits_ne_nil h)
      (natDigits_all_digits h) (by decide) (natDigits m ++ 'M' :: (natDigits s ++ ['S']))
    have e2 := matchComp_digits 'M' (natDigits m) (natDigits_ne_nil m)
      (natDigits_all_digits m) (by decide) (natDigits s ++ ['S'])
    have e3 := matchComp_digits 'S' (natDigits s) (natDigits_ne_nil s)
      (natDigits_all_digits s) (by decide) []
    rw [parse_of_data _ _ (hmsToken_data h m s)]
    simp only [e1, e2, e3, natDigits_toNat, Option.getD_some]
  · intro h m
    have e1 := matchComp_digits 'H' (natDigits h) (natDigits_ne_nil h)
      (natDigits_all_digits h) (by decide) (natDigits m ++ ['M'])
    have e2 := matchComp_digits 'M' (natDigits m) (natDigits_ne_nil m)
      (natDigits_all_digits m) (by decide) []
    rw [parse_of_data _ _ (hmToken_data h m)]
    simp only [e1, e2, show matchComp 'S' [] = (none, []) from rfl,
      natDigits_toNat, Option.getD_some, Option.getD_none]
  · intro h s
    have e1 := matchComp_digits 'H' (natDigits h) (natDigits_ne_nil h)
      (natDigits_all_digits h) (by decide) (natDigits s ++ ['S'])
    have e2 := matchComp_skip 'M' 'S' (by decide) (by decide) (natDigits s)
      (natDigits_ne_nil s) (natDigits_all_digits s) []
    have e3 := matchComp_digits 'S' (natDigits s) (natDigits_ne_nil s)
      (natDigits_all_digits s) (by decide) []
    rw [parse_of_data _ _ (hsToken_data h s)]
    simp only [e1, e2, e3, natDigits_toNat, Option.getD_some, Option.getD_none]
  · intro h
    have e1 := matchComp_digits 'H' (natDigits h) (natDigits_ne_nil h)
      (natDigits_all_digits h) (by decide) []
    rw [parse_of_data _ _ (hToken_data h)]
    simp only [e1, show matchComp 'M' [] = (none, []) from rfl,
      show matchComp 'S' [] = (none, []) from rfl,
      natDigits_toNat, Option.getD_some, Option.getD_none]
  · intro m s
    have e1 := matchComp_skip 'H' 'M' (by decide) (by decide) (natDigits m)
      (natDigits_ne_nil m) (natDigits_all_digits m) (natDigits s ++ ['S'])
    have e2 := matchComp_digits 'M' (natDigits m) (natDigits_ne_nil m)
      (natDigits_all_digits m) (by decide) (natDigits s ++ ['S'])
    have e3 := matchComp_digits 'S' (natDigits s) (natDigits_ne_nil s)
      (natDigits_all_digits s) (by decide) []
    rw [parse_of_data _ _ (msToken_data m s)]
    simp only [e1, e2, e3, natDigits_toNat, Option.getD_some, Option.getD_none]
    rw [if_neg (by omega)]
  · intro m
    have e1 := matchComp_skip 'H' 'M' (by decide) (by decide) (natDigits m)
      (natDigits_ne_nil m) (natDigits_all_digits m) []
    have e2 := matchComp_digits 'M' (natDigits m) (natDigits_ne_nil m)
      (natDigits_all_digits m) (by decide) []
    rw [parse_of_data _ _ (mToken_data m)]
    simp only [e1, e2, show matchComp 'S' [] = (none, []) from rfl,
      natDigits_toNat, Option.getD_some, Option.getD_none]
    rw [if_neg (by omega)]
  · intro s
    have e1 := matchComp_skip 'H' 'S' (by decide) (by decide) (natDigits s)
      (natDigits_ne_nil s) (natDigits_all_digits s) []
    have e2 := matchComp_skip 'M' 'S' (by decide) (by decide) (natDigits s)
      (natDigits_ne_nil s) (natDigits_all_digits s) []
    have e3 := matchComp_digits 'S' (natDigits s) (natDigits_ne_nil s)
      (natDigits_all_digits s) (by decide) []
    rw [parse_of_data _ _ (sToken_data s)]
    simp only [e1, e2, e3, natDigits_toNat, Option.getD_some, Option.getD_none]
    rw [if_neg (by omega)]

/-- C2: the claim says re-adding the same video id for the same owner
replaces the prior entry, leaving exactly one row.  The code's insert can
never replace (the table has no uniqueness on (video_id, user_id), only the
autoincrement id the insert omits), so after sending "abc123" twice there
are TWO rows for that id and owner, both calls' metadata retained. -/
theorem C2_failing :
    (db_after_two_adds.video_history.filter
      (fun r => r.video_id == "abc123" && r.user_id == 1)).length = 2 ∧
    db_after_two_adds.video_history.map VideoHistoryRow.title =
      ["Intro to Torque", "Torque Revisited"] := by decide

/-- C3 counterexample: the input "teach me physics please" selects the
learning-request category (shown by the equality with that category's
template), and the reply contains TWO question marks — one mid-body after
"handle" and one at the end — refuting "every category's template
(including the learning-request category) produces a reply with exactly one
question mark". -/
theorem C3_counterexample :
    generate_fallback "teach me physics please" =
      "Perfect! You want to learn from the beginning. Let's start with the most basic question: when you open a door, do you push near the hinges or near the handle? Why do you think that is?" ∧
    countQ (generate_fallback "teach me physics please") = 2 := by decide

/-- C3 amended: every fallback reply ends with a question mark as its final
character, and the input "I don't know torque" yields a reply that mentions
torque and contains exactly one question mark, placed at the end; but the
"exactly one question mark" part does not extend to every category — the
learning-request template and the default echo template each contain two
question marks. -/
theorem C3_amended :
    (∀ m : String, lastCh (generate_fallback m) = some '?') ∧
    countQ (generate_fallback "I don't know torque") = 1 ∧
    lastCh (generate_fallback "I don't know torque") = some '?' ∧
    subStrOf "torque" (generate_fallback "I don't know torque") = true ∧
    countQ (generate_fallback "teach me physics please") = 2 ∧
    countQ (generate_fallback "elephants like watermelon") = 2 :=
  ⟨fallback_ends_question, by decide, by decide, by decide, by decide, by decide⟩

/-- C4 counterexample: when the provider call fails (here with a quota
error) on the non-empty query "physics", search_videos surfaces a hard HTTP
429 failure instead of returning the sample set — refuting "when ... any
provider call fails, the search operation returns the small fixed sample
set ... instead of surfacing a hard failure". -/
theorem C4_counterexample :
    search_videos (some (Except.error ProviderFailure.quotaExceeded)) "physics" 12 =
      SearchOutcome.httpError 429 "YouTube API quota exceeded. Please try again later." := by
  decide

/-- C4 amended: for every non-empty query, an ABSENT provider degrades to
the fixed sample set tagged "sample" (non-authoritative); a provider-call
FAILURE, by contrast, surfaces a hard error status: 429 on quota
exhaustion, 401 on an invalid key, 500 otherwise. -/
theorem C4_amended (q : String) (n : Nat) (h : trimStr q ≠ "") :
    search_videos none q n =
      SearchOutcome.results ((sample_videos (trimStr q)).take (min n 25)) "sample" ∧
    search_videos (some (Except.error ProviderFailure.quotaExceeded)) q n =
      SearchOutcome.httpError 429 "YouTube API quota exceeded. Please try again later." ∧
    search_videos (some (Except.error ProviderFailure.keyInvalid)) q n =
      SearchOutcome.httpError 401 "Invalid YouTube API key." ∧
    ∀ msg, search_videos (some (Except.error (ProviderFailure.other msg))) q n =
      SearchOutcome.httpError 500 ("Failed to fetch videos: " ++ msg) := by
  have hq : (trimStr q == "") = false := by
    cases hb : trimStr q == "" with
    | false => rfl
    | true => exact absurd (by simpa using hb) h
  refine ⟨?_, ?_, ?_, fun msg => ?_⟩ <;> simp [search_videos, hq]

/-- Witness for C4_amended at the query "physics". -/
theorem C4_amended_witness :
    search_videos none "physics" 12 =
      SearchOutcome.results ((sample_videos "physics").take 12) "sample" := by
  have h := (C4_amended "physics" 12 (by decide)).1
  rw [show trimStr "physics" = "physics" from by decide,
    show min 12 25 = 12 from by decide] at h
  exact h

/-- C8: clearing memory for a session removes only that session's entry from
the in-memory rolling window; the whole database — hence every persisted
conversation row and chat message — is left unchanged, and every other
session's window entry is untouched. -/
theorem C8_clear_memory (st : ServerState) (session_id : String) :
    (clear_chat st session_id).db = st.db ∧
    memLookup (clear_chat st session_id).conversation_memory session_id = none ∧
    ∀ k, k ≠ session_id →
      memLookup (clear_chat st session_id).conversation_memory k =
        memLookup st.conversation_memory k := by
  refine ⟨rfl, ?_, fun k hk => ?_⟩
  · show memLookup (memErase st.conversation_memory session_id) session_id = none
    unfold memLookup memErase
    rw [find?_filter_none st.conversation_memory
      (fun p => p.1 == session_id) (fun p => !(p.1 == session_id))
      (fun x hx => by simpa using hx)]
    rfl
  · show memLookup (memErase st.conversation_memory session_id) k =
      memLookup st.conversation_memory k
    unfold memLookup memErase
    rw [find?_filter_eq st.conversation_memory
      (fun p => p.1 == k) (fun p => !(p.1 == session_id))
      (fun x hx => by simp [show x.1 = k from by simpa using hx, hk])]

/-- Witness for C8_clear_memory: clearing session "s1" leaves the database
untouched and the entry of session "s2" intact. -/
theorem C8_witness :
    (clear_chat ⟨emptyDB, [("s1", ["a"]), ("s2", ["b"])]⟩ "s1").db = emptyDB ∧
    memLookup (clear_chat ⟨emptyDB, [("s1", ["a"]), ("s2", ["b"])]⟩ "s1").conversation_memory
      "s2" = some ["b"] := by
  have h := C8_clear_memory ⟨emptyDB, [("s1", ["a"]), ("s2", ["b"])]⟩ "s1"
  refine ⟨h.1, ?_⟩
  rw [h.2.2 "s2" (by decide)]
  decide

/-- C9: in a journal partial update every `None` argument leaves its column
unchanged on every row (in particular the folder reference, once set, can
never be nulled by the update — a set folder reference stays set), and the
all-`None` call returns `False` without modifying the database at all. -/
theorem C9_partial_update (db : DB) (journal_id : Nat) (t c : Option String)
    (tg : Option (List String)) (f : Option Nat) :
    update_journal db journal_id none none none none = (false, db) ∧
    (update_journal db journal_id t c tg f).2.journals.length = db.journals.length ∧
    ∀ i (hi : i < db.journals.length)
      (hi2 : i < (update_journal db journal_id t c tg f).2.journals.length),
      (t = none → ((update_journal db journal_id t c tg f).2.journals.get ⟨i, hi2⟩).title =
        (db.journals.get ⟨i, hi⟩).title) ∧
      (c = none → ((update_journal db journal_id t c tg f).2.journals.get ⟨i, hi2⟩).content =
        (db.journals.get ⟨i, hi⟩).content) ∧
      (tg = none → ((update_journal db journal_id t c tg f).2.journals.get ⟨i, hi2⟩).tags =
        (db.journals.get ⟨i, hi⟩).tags) ∧
      (f = none → ((update_journal db journal_id t c tg f).2.journals.get ⟨i, hi2⟩).folder_id =
        (db.journals.get ⟨i, hi⟩).folder_id) ∧
      ((db.journals.get ⟨i, hi⟩).folder_id.isSome →
        ((update_journal db journal_id t c tg f).2.journals.get ⟨i, hi2⟩).folder_id.isSome) := by
  refine ⟨rfl, ?_, ?_⟩
  · by_cases hall : (t.isNone && c.isNone && tg.isNone && f.isNone) = true
    · simp [update_journal, hall]
    · simp only [update_journal, hall, Bool.false_eq_true, if_false, updRows]
      exact List.length_map _ _
  · intro i hi hi2
    by_cases hall : (t.isNone && c.isNone && tg.isNone && f.isNone) = true
    · simp [update_journal, hall]
    · simp only [update_journal, hall, Bool.false_eq_true, if_false, updRows,
        List.get_eq_getElem, List.getElem_map]
      by_cases hp : (db.journals[i].id == journal_id) = true
      · simp only [hp, if_true]
        refine ⟨fun ht => ?_, fun hc => ?_, fun htg => ?_, fun hf => ?_, fun hs => ?_⟩
        · subst ht; rfl
        · subst hc; rfl
        · subst htg; rfl
        · subst hf; rfl
        · cases f with
          | none => exact hs
          | some v => rfl
      · simp [hp]

/-- Witness for C9_partial_update: the all-None call returns False leaving
dbC9 unchanged, and a title-only update keeps journal 1 in folder 7. -/
theorem C9_witness :
    update_journal dbC9 1 none none none none = (false, dbC9) ∧
    ((update_journal dbC9 1 (some "New") none none none).2.journals.get
      ⟨0, by decide⟩).folder_id = some 7 := by
  have h := C9_partial_update dbC9 1 (some "New") none none none
  refine ⟨h.1, ?_⟩
  have h0 := (h.2.2 0 (by decide) (by decide)).2.2.2.1 rfl
  rw [h0]
  decide

/-- C10: when no journal row matches the requested id and owner, the
share-toggle still returns the freshly generated token (the token is drawn
before the UPDATE and returned unconditionally); the UPDATE then affects
zero rows, so — the token being fresh — the returned token is associated
with no stored journal, and the endpoint answers success with that token
and a constructed share URL. -/
theorem C10_share_unmatched (db : DB) (journal_id user_id : Nat) (tok host : String)
    (hmatch : ∀ j ∈ db.journals, ¬(j.id = journal_id ∧ j.user_id = user_id))
    (hfresh : ∀ j ∈ db.journals, j.share_token ≠ some tok) :
    (share_journal db journal_id user_id tok).1 = tok ∧
    (share_journal db journal_id user_id tok).2.journals = db.journals ∧
    (∀ j ∈ (share_journal db journal_id user_id tok).2.journals, j.share_token ≠ some tok) ∧
    (user_id = 1 →
      (toggle_journal_sharing db journal_id tok host).1 =
        ShareOutcome.ok tok (host ++ "shared/" ++ tok) ∧
      (toggle_journal_sharing db journal_id tok host).2.journals = db.journals) := by
  have hfix : ∀ u : Nat, (∀ j ∈ db.journals, ¬(j.id = journal_id ∧ j.user_id = u)) →
      updRows (fun j => j.id == journal_id && j.user_id == u)
        (fun j => { j with is_shared := !j.is_shared, share_token := some tok,
                           updated_at := db.clock }) db.journals = db.journals := by
    intro u hm
    apply map_eq_self_of_fix
    intro x hx
    have hpx : (x.id == journal_id && x.user_id == u) = false := by
      cases hb : (x.id == journal_id && x.user_id == u) with
      | false => rfl
      | true =>
        have hb2 : x.id = journal_id ∧ x.user_id = u := by simpa using hb
        exact absurd hb2 (hm x hx)
    simp [hpx]
  have hj : (share_journal db journal_id user_id tok).2.journals = db.journals := by
    show updRows _ _ db.journals = db.journals
    exact hfix user_id hmatch
  refine ⟨rfl, hj, ?_, fun hu => ?_⟩
  · rw [hj]; exact hfresh
  · subst hu
    have hj1 : (share_journal db journal_id 1 tok).2.journals = db.journals :=
      hfix 1 hmatch
    exact ⟨rfl, hj1⟩

/-- Witness for C10_share_unmatched: dbC9 holds only journal 1, so sharing
journal 9 matches nothing, yet the token comes back and no row changes. -/
theorem C10_witness :
    (share_journal dbC9 9 1 "freshtok").1 = "freshtok" ∧
    (share_journal dbC9 9 1 "freshtok").2.journals = dbC9.journals := by
  have h := C10_share_unmatched dbC9 9 1 "freshtok" "http://localhost/"
    (by decide) (by decide)
  exact ⟨h.1, h.2.1⟩

/-- update_conversation_activity never touches the chat_messages table. -/
theorem update_conversation_activity_messages (db : DB) (cid : Nat) (um : Option String) :
    (update_conversation_activity db cid um).chat_messages = db.chat_messages := by
  unfold update_conversation_activity
  cases um with
  | none => rfl
  | some m =>
    by_cases hm : (m == "") = true
    · simp only [hm, if_true]; rfl
    · simp only [hm, Bool.false_eq_true, if_false]
      cases hf : (set_conv_updated_at db cid).conversations.find? (fun c => c.id == cid) with
      | none => rfl
      | some c =>
        by_cases ht : title_falsy c.title = true
        · simp only [ht, if_true]; rfl
        · simp only [ht, Bool.false_eq_true, if_false]; rfl

/-- add_chat_message appends exactly one message row, carrying the given
session, sender and text, to the chat_messages table. -/
theorem add_chat_message_messages (db : DB) (sid sender msg : String) (u : Nat) :
    ∃ mid cid ts, (add_chat_message db sid sender msg u).2.chat_messages =
      db.chat_messages ++
        [{ id := mid, conversation_id := cid, session_id := sid,
           sender := sender, message := msg, timestamp := ts }] := by
  unfold add_chat_message
  cases hf : findConv db sid u with
  | some c =>
    refine ⟨db.next_message_id, c.id, db.clock, ?_⟩
    simp only [get_or_create_conversation, hf]
    rw [update_conversation_activity_messages]
  | none =>
    refine ⟨db.next_message_id, db.next_conversation_id, db.clock + 1, ?_⟩
    simp only [get_or_create_conversation, hf]
    rw [update_conversation_activity_messages]
    rfl

/-- C1 counterexample: for the non-empty message "hi" with the provider
absent (genai is None), the claim requires the user message to be persisted
and a fallback reply to be persisted as an assistant message; the handler
instead returns the fallback reply having written nothing at all — the
database still has no chat message and no conversation, and the trace shows
no persist event. -/
theorem C1_counterexample :
    (chat none initialState "hi" "s1").1 =
      ChatOutcome.reply (generate_fallback "hi") "fallback" ∧
    (chat none initialState "hi" "s1").2.1.db.chat_messages = [] ∧
    (chat none initialState "hi" "s1").2.1.db.conversations = [] ∧
    (chat none initialState "hi" "s1").2.2 = [] := by decide

/-- C1 amended: when a provider client IS configured, the handler persists
the incoming user message strictly before the provider call (the event
trace starts with the user persist followed by the provider call), and on
provider failure it persists the fallback reply as an assistant message
right after the persisted user message; when the provider is ABSENT,
however, the handler returns the fallback reply without persisting either
the user message or the reply (server state unchanged). -/
theorem C1_amended (b : Except String String) (st : ServerState)
    (message session_id : String) (h : trimStr message ≠ "") :
    (∃ tail, (chat (some b) st message session_id).2.2 =
      ChatEvent.persist "user" (trimStr message) :: ChatEvent.provider_call :: tail) ∧
    (∀ e, b = Except.error e →
      ∃ rows, (chat (some b) st message session_id).2.1.db.chat_messages =
        st.db.chat_messages ++ rows ∧
        rows.map (fun mm => (mm.sender, mm.message)) =
          [("user", trimStr message), ("ai", generate_fallback (trimStr message))]) ∧
    ((chat none st message session_id).2.1 = st ∧
     (chat none st message session_id).1 =
       ChatOutcome.reply (generate_fallback (trimStr message)) "fallback") := by
  have hq : (trimStr message == "") = false := by
    cases hb : trimStr message == "" with
    | false => rfl
    | true => exact absurd (by simpa using hb) h
  refine ⟨?_, ?_, ?_, ?_⟩
  · cases b with
    | ok text =>
      exact ⟨[ChatEvent.persist "ai" text], by simp only [chat, hq]; rfl⟩
    | error e =>
      exact ⟨[ChatEvent.persist "ai" (generate_fallback (trimStr message))],
        by simp only [chat, hq]; rfl⟩
  · intro e hb
    subst hb
    obtain ⟨m1, c1, t1, h1⟩ :=
      add_chat_message_messages st.db session_id "user" (trimStr message) 1
    obtain ⟨m2, c2, t2, h2⟩ :=
      add_chat_message_messages
        (add_chat_message st.db session_id "user" (trimStr message) 1).2
        session_id "ai" (generate_fallback (trimStr message)) 1
    refine ⟨[{ id := m1, conversation_id := c1, session_id := session_id, sender := "user",
               message := trimStr message, timestamp := t1 },
             { id := m2, conversation_id := c2, session_id := session_id, sender := "ai",
               message := generate_fallback (trimStr message), timestamp := t2 }], ?_, rfl⟩
    have hdb : (chat (some (Except.error e)) st message session_id).2.1.db =
        (add_chat_message
          (add_chat_message st.db session_id "user" (trimStr message) 1).2
          session_id "ai" (generate_fallback (trimStr message)) 1).2 := by
      simp [chat, hq]
    rw [hdb, h2, h1, List.append_assoc]
    rfl
  · simp [chat, hq]
  · simp [chat, hq]

/-- Witness for C1_amended at the message "hi": the absent-provider branch
leaves the server state unchanged and returns the fallback reply. -/
theorem C1_amended_witness :
    (chat none initialState "hi" "s1").2.1 = initialState ∧
    (chat none initialState "hi" "s1").1 =
      ChatOutcome.reply (generate_fallback (trimStr "hi")) "fallback" := by
  have h := C1_amended (Except.error "boom") initialState "hi" "s1" (by decide)
  exact h.2.2

/-- The image of a member under an UPDATE that matches it. -/
theorem mem_updRows_of_mem {α : Type} {p : α → Bool} {f : α → α} {l : List α} {x : α}
    (hx : x ∈ l) (hp : p x = true) : f x ∈ updRows p f l := by
  unfold updRows
  refine List.mem_map.mpr ⟨x, hx, ?_⟩
  simp [hp]

/-- Every row after an UPDATE descends from a row before it. -/
theorem exists_pre_of_mem_updRows {α : Type} {p : α → Bool} {f : α → α} {l : List α} {y : α}
    (hy : y ∈ updRows p f l) : ∃ x, x ∈ l ∧ y = if p x = true then f x else x := by
  unfold updRows at hy
  rcases List.mem_map.mp hy with ⟨x, hx, hxy⟩
  exact ⟨x, hx, hxy.symm⟩

/-- C6: a non-permanent delete removes the conversation from the default
listing and puts it in the trash listing; restore reverses this exactly —
the row is back with the soft-delete flag down and the deletion timestamp
cleared, its identity and title intact, present in the default listing and
absent from trash; a permanent delete removes it from both listings and
deletes every one of its message rows, so its messages are unretrievable. -/
theorem C6_trash_lifecycle (db : DB) (u : Nat) (c : Conversation)
    (hc : c ∈ db.conversations) (hu : c.user_id = u) :
    ((get_conversation_history (delete_conversation db c.id u false) u false).all
      (fun x => !(x.id == c.id)) = true) ∧
    ((get_conversation_history (delete_conversation db c.id u false) u true).any
      (fun x => x.id == c.id) = true) ∧
    (∃ c2,
      c2 ∈ (restore_conversation (delete_conversation db c.id u false) c.id u).conversations ∧
      c2.id = c.id ∧ c2.session_id = c.session_id ∧ c2.user_id = u ∧
      c2.is_deleted = false ∧ c2.deleted_at = none ∧ c2.title = c.title ∧
      (get_conversation_history
        (restore_conversation (delete_conversation db c.id u false) c.id u) u false).any
        (fun x => x.id == c.id) = true ∧
      (get_conversation_history
        (restore_conversation (delete_conversation db c.id u false) c.id u) u true).all
        (fun x => !(x.id == c.id)) = true) ∧
    ((get_conversation_history (delete_conversation db c.id u true) u false).all
      (fun x => !(x.id == c.id)) = true ∧
     (get_conversation_history (delete_conversation db c.id u true) u true).all
      (fun x => !(x.id == c.id)) = true ∧
     (delete_conversation db c.id u true).chat_messages.all
      (fun mm => !(mm.conversation_id == c.id)) = true ∧
     (get_conversation_messages (delete_conversation db c.id u true) c.session_id u).all
      (fun mm => !(mm.conversation_id == c.id)) = true) := by
  have hdel : (delete_conversation db c.id u false).conversations =
      updRows (fun x => x.id == c.id && x.user_id == u)
        (fun x => { x with is_deleted := true, deleted_at := some db.clock,
                           updated_at := db.clock }) db.conversations := rfl
  have hres : (restore_conversation (delete_conversation db c.id u false) c.id u).conversations =
      updRows (fun x => x.id == c.id && x.user_id == u)
        (fun x => { x with is_deleted := false, deleted_at := none,
                           updated_at := (delete_conversation db c.id u false).clock })
        (delete_conversation db c.id u false).conversations := rfl
  have hpc : (c.id == c.id && c.user_id == u) = true := by simp [hu]
  refine ⟨?_, ?_, ?_, ?_, ?_, ?_, ?_⟩
  · -- gone from the default listing after soft delete
    apply List.all_eq_true.mpr
    intro x hx
    rcases List.mem_filter.mp hx with ⟨hxmem, hxcond⟩
    simp only [Bool.and_eq_true, Bool.not_eq_true', beq_iff_eq] at hxcond
    rw [hdel] at hxmem
    rcases exists_pre_of_mem_updRows hxmem with ⟨x0, hx0, hxeq⟩
    simp only [Bool.not_eq_true', beq_eq_false_iff_ne]
    intro heq
    by_cases hp : (x0.id == c.id && x0.user_id == u) = true
    · rw [hxeq] at hxcond
      simp only [hp, if_true] at hxcond
      exact absurd hxcond.2 (by simp)
    · rw [if_neg (by simpa using hp)] at hxeq
      subst hxeq
      exact hp (by simp [heq, hxcond.1])
  · -- present in the trash listing after soft delete
    apply List.any_eq_true.mpr
    refine ⟨{ c with is_deleted := true, deleted_at := some db.clock,
                     updated_at := db.clock }, ?_, by simp⟩
    apply List.mem_filter.mpr
    refine ⟨?_, by simp [hu]⟩
    rw [hdel]
    exact mem_updRows_of_mem hc hpc
  · -- restore brings the row back, flag down and timestamp cleared
    refine ⟨{ c with is_deleted := false, deleted_at := none,
                     updated_at := (delete_conversation db c.id u false).clock },
            ?_, rfl, rfl, hu, rfl, rfl, rfl, ?_, ?_⟩
    · rw [hres, hdel]
      have step1 := @mem_updRows_of_mem Conversation
        (fun x => x.id == c.id && x.user_id == u)
        (fun x => { x with is_deleted := true, deleted_at := some db.clock,
                           updated_at := db.clock })
        db.conversations c hc hpc
      exact @mem_updRows_of_mem Conversation
        (fun x => x.id == c.id && x.user_id == u)
        (fun x => { x with is_deleted := false, deleted_at := none,
                           updated_at := (delete_conversation db c.id u false).clock })
        _
        { c with is_deleted := true, deleted_at := some db.clock,
                 updated_at := db.clock }
        step1 (by simpa using hpc)
    · -- in the default listing again
      apply List.any_eq_true.mpr
      refine ⟨{ c with is_deleted := false, deleted_at := none,
                       updated_at := (delete_conversation db c.id u false).clock },
              ?_, by simp⟩
      apply List.mem_filter.mpr
      refine ⟨?_, by simp [hu]⟩
      rw [hres, hdel]
      have step1 := @mem_updRows_of_mem Conversation
        (fun x => x.id == c.id && x.user_id == u)
        (fun x => { x with is_deleted := true, deleted_at := some db.clock,
                           updated_at := db.clock })
        db.conversations c hc hpc
      exact @mem_updRows_of_mem Conversation
        (fun x => x.id == c.id && x.user_id == u)
        (fun x => { x with is_deleted := false, deleted_at := none,
                           updated_at := (delete_conversation db c.id u false).clock })
        _
        { c with is_deleted := true, deleted_at := some db.clock,
                 updated_at := db.clock }
        step1 (by simpa using hpc)
    · -- no longer in the trash listing
      apply List.all_eq_true.mpr
      intro x hx
      rcases List.mem_filter.mp hx with ⟨hxmem, hxcond⟩
      simp only [Bool.and_eq_true, beq_iff_eq, if_true] at hxcond
      rw [hres] at hxmem
      rcases exists_pre_of_mem_updRows hxmem with ⟨x1, hx1, hxeq⟩
      simp only [Bool.not_eq_true', beq_eq_false_iff_ne]
      intro heq
      by_cases hp : (x1.id == c.id && x1.user_id == u) = true
      · rw [hxeq] at hxcond
        simp only [hp, if_true] at hxcond
        exact absurd hxcond.2 (by simp)
      · rw [if_neg (by simpa using hp)] at hxeq
        subst hxeq
        exact hp (by simp [heq, hxcond.1])
  · -- permanent delete: gone from the default listing
    apply List.all_eq_true.mpr
    intro x hx
    rcases List.mem_filter.mp hx with ⟨hxmem, hxcond⟩
    simp only [Bool.and_eq_true, Bool.not_eq_true', beq_iff_eq] at hxcond
    have hxmem2 : x ∈ db.conversations.filter
        (fun y => !(y.id == c.id && y.user_id == u)) := hxmem
    rcases List.mem_filter.mp hxmem2 with ⟨_, hkeep⟩
    simp only [Bool.not_eq_true', Bool.and_eq_false_iff, beq_eq_false_iff_ne] at hkeep
    simp only [Bool.not_eq_true', beq_eq_false_iff_ne]
    intro heq
    rcases hkeep with hk | hk
    · exact hk heq
    · exact hk hxcond.1
  · -- permanent delete: gone from the trash listing
    apply List.all_eq_true.mpr
    intro x hx
    rcases List.mem_filter.mp hx with ⟨hxmem, hxcond⟩
    simp only [Bool.and_eq_true, beq_iff_eq, if_true] at hxcond
    have hxmem2 : x ∈ db.conversations.filter
        (fun y => !(y.id == c.id && y.user_id == u)) := hxmem
    rcases List.mem_filter.mp hxmem2 with ⟨_, hkeep⟩
    simp only [Bool.not_eq_true', Bool.and_eq_false_iff, beq_eq_false_iff_ne] at hkeep
    simp only [Bool.not_eq_true', beq_eq_false_iff_ne]
    intro heq
    rcases hkeep with hk | hk
    · exact hk heq
    · exact hk hxcond.1
  · -- permanent delete: the message rows are gone
    apply List.all_eq_true.mpr
    intro mm hmm
    have hmm2 : mm ∈ db.chat_messages.filter
        (fun y => !(y.conversation_id == c.id)) := hmm
    exact (List.mem_filter.mp hmm2).2
  · -- permanent delete: retrieval by session finds none of its messages
    apply List.all_eq_true.mpr
    intro mm hmm
    rcases List.mem_filter.mp hmm with ⟨hmmmem, _⟩
    have hmm2 : mm ∈ db.chat_messages.filter
        (fun y => !(y.conversation_id == c.id)) := hmmmem
    exact (List.mem_filter.mp hmm2).2

/-- Witness for C6_trash_lifecycle on the one-conversation database dbC6. -/
theorem C6_witness :
    ((get_conversation_history (delete_conversation dbC6 1 1 false) 1 false).all
      (fun x => !(x.id == 1)) = true) ∧
    ((get_conversation_history (delete_conversation dbC6 1 1 false) 1 true).any
      (fun x => x.id == 1) = true) ∧
    ((get_conversation_messages (delete_conversation dbC6 1 1 true) "s1" 1).all
      (fun mm => !(mm.conversation_id == 1)) = true) := by
  have h := C6_trash_lifecycle dbC6 1 convC6 (by decide) rfl
  exact ⟨h.1, h.2.1, h.2.2.2.2.2.2⟩

/-- Lookup via `find?` skips a prefix in which nothing matches. -/
theorem find?_append {α : Type} (l1 l2 : List α) (q : α → Bool)
    (h : l1.find? q = none) : (l1 ++ l2).find? q = l2.find? q := by
  induction l1 with
  | nil => rfl
  | cons a t ih =>
    by_cases hq : q a = true
    · rw [List.find?_cons_of_pos _ hq] at h; cases h
    · rw [List.find?_cons_of_neg _ (by simpa using hq)] at h
      rw [List.cons_append, List.find?_cons_of_neg _ (by simpa using hq)]
      exact ih h

/-- With pairwise-distinct ids, looking a conversation up by its id finds
exactly the row that the session lookup found. -/
theorem find?_id_of_findConv (db : DB) (sid : String) (u : Nat) (c : Conversation)
    (hp : db.conversations.Pairwise (fun a b => a.id ≠ b.id))
    (hfind : findConv db sid u = some c) :
    db.conversations.find? (fun x => x.id == c.id) = some c := by
  have hmem : c ∈ db.conversations := List.mem_of_find?_eq_some hfind
  apply find?_eq_of_mem_of_unique _ _ _ hmem (by simp)
  intro x hx hqx
  exact eq_of_pairwise_ne_key Conversation.id db.conversations hp x hx c hmem
    (by simpa using hqx)

/-- Bumping `updated_at` commutes with the session lookup. -/
theorem findConv_set_updated (db : DB) (cid : Nat) (sid : String) (u : Nat) :
    findConv (set_conv_updated_at db cid) sid u =
      (findConv db sid u).map
        (fun x => if x.id == cid then { x with updated_at := db.clock } else x) := by
  show (updRows _ _ db.conversations).find? _ = _
  exact find?_map_of_inv _ _
    (fun a => by by_cases h : (a.id == cid) = true <;> simp [h]) _

/-- Setting the title commutes with the session lookup. -/
theorem findConv_set_title (db : DB) (cid : Nat) (t : String) (sid : String) (u : Nat) :
    findConv (set_conv_title db cid t) sid u =
      (findConv db sid u).map
        (fun x => if x.id == cid then { x with title := some t } else x) := by
  show (updRows _ _ db.conversations).find? _ = _
  exact find?_map_of_inv _ _
    (fun a => by by_cases h : (a.id == cid) = true <;> simp [h]) _

/-- Bumping `updated_at` commutes with the lookup by id. -/
theorem find?_id_set_updated (d : DB) (cid : Nat) :
    (set_conv_updated_at d cid).conversations.find? (fun x => x.id == cid) =
      (d.conversations.find? (fun x => x.id == cid)).map
        (fun x => if x.id == cid then { x with updated_at := d.clock } else x) := by
  show (updRows _ _ d.conversations).find? _ = _
  exact find?_map_of_inv _ _
    (fun a => by by_cases h : (a.id == cid) = true <;> simp [h]) _

/-- update_conversation_activity with a non-empty user message derives and
stores the title when the found row's title is falsy (NULL or empty). -/
theorem uca_sets_title (d : DB) (cid : Nat) (m : String) (sid : String) (u : Nat)
    (hm : (m == "") = false)
    (hp : d.conversations.Pairwise (fun a b => a.id ≠ b.id))
    (c : Conversation) (hfc : findConv d sid u = some c)
    (hcid : c.id = cid) (ht : title_falsy c.title = true) :
    findConv (update_conversation_activity d cid (some m)) sid u =
      some { c with updated_at := d.clock, title := some (derive_title m) } := by
  subst hcid
  have hfid0 : d.conversations.find? (fun x => x.id == c.id) = some c :=
    find?_id_of_findConv d sid u c hp hfc
  have hfid : (set_conv_updated_at d c.id).conversations.find? (fun x => x.id == c.id) =
      some { c with updated_at := d.clock } := by
    rw [find?_id_set_updated, hfid0]
    simp
  have ht2 : title_falsy ({ c with updated_at := d.clock } : Conversation).title = true := ht
  unfold update_conversation_activity
  simp only [hm, Bool.false_eq_true, if_false, hfid, ht2, if_true]
  rw [findConv_set_title, findConv_set_updated, hfc]
  simp

/-- update_conversation_activity never changes a non-falsy title: the
session lookup still finds the row, with only `updated_at` bumped. -/
theorem uca_keeps_title (d : DB) (cid : Nat) (marg : Option String) (sid : String) (u : Nat)
    (hp : d.conversations.Pairwise (fun a b => a.id ≠ b.id))
    (c : Conversation) (hfc : findConv d sid u = some c) (hcid : c.id = cid)
    (T : String) (ht : c.title = some T) (hT : (T == "") = false) :
    findConv (update_conversation_activity d cid marg) sid u =
      some { c with updated_at := d.clock } := by
  subst hcid
  have hbase : findConv (set_conv_updated_at d c.id) sid u =
      some { c with updated_at := d.clock } := by
    rw [findConv_set_updated, hfc]
    simp
  have hfid0 : d.conversations.find? (fun x => x.id == c.id) = some c :=
    find?_id_of_findConv d sid u c hp hfc
  have hfid : (set_conv_updated_at d c.id).conversations.find? (fun x => x.id == c.id) =
      some { c with updated_at := d.clock } := by
    rw [find?_id_set_updated, hfid0]
    simp
  have ht2 : title_falsy ({ c with updated_at := d.clock } : Conversation).title = false := by
    show title_falsy c.title = false
    rw [ht]
    simpa [title_falsy] using hT
  unfold update_conversation_activity
  cases marg with
  | none => exact hbase
  | some m =>
    by_cases hm0 : (m == "") = true
    · simp only [hm0, if_true]
      exact hbase
    · simp only [(by simpa using hm0 : (m == "") = false), Bool.false_eq_true, if_false,
        hfid, ht2, if_false]
      exact hbase

/-- Shape of add_chat_message when the session's conversation exists. -/
theorem add_chat_message_existing (db : DB) (sid sender msg : String) (u : Nat)
    (c : Conversation) (hf : findConv db sid u = some c) :
    (add_chat_message db sid sender msg u).2 =
      update_conversation_activity (with_msg db c.id sid sender msg)
        c.id (if sender == "user" then some msg else none) := by
  unfold add_chat_message get_or_create_conversation
  rw [hf]
  rfl

/-- Shape of add_chat_message when the session has no conversation yet. -/
theorem add_chat_message_new (db : DB) (sid sender msg : String) (u : Nat)
    (hf : findConv db sid u = none) :
    (add_chat_message db sid sender msg u).2 =
      update_conversation_activity
        (with_msg (db_after_create db sid u) db.next_conversation_id sid sender msg)
        db.next_conversation_id (if sender == "user" then some msg else none) := by
  unfold add_chat_message get_or_create_conversation create_conversation
  rw [hf]
  rfl

/-- An UPDATE whose row function preserves ids preserves pairwise-distinct ids. -/
theorem pairwise_ids_updRows (p : Conversation → Bool) (f : Conversation → Conversation)
    (hid : ∀ x, (f x).id = x.id) (l : List Conversation)
    (hp : l.Pairwise (fun a b => a.id ≠ b.id)) :
    (updRows p f l).Pairwise (fun a b => a.id ≠ b.id) := by
  unfold updRows
  apply List.pairwise_map.mpr
  apply List.Pairwise.imp ?_ hp
  intro a b hab
  by_cases ha : p a = true <;> by_cases hb : p b = true <;>
    simp [ha, hb, hid]
  all_goals exact hab

/-- An UPDATE whose row function preserves ids preserves the id bound. -/
theorem bound_ids_updRows (p : Conversation → Bool) (f : Conversation → Conversation)
    (hid : ∀ x, (f x).id = x.id) (l : List Conversation) (n : Nat)
    (hb : ∀ x ∈ l, x.id < n) : ∀ y ∈ updRows p f l, y.id < n := by
  intro y hy
  rcases exists_pre_of_mem_updRows hy with ⟨x, hx, hxy⟩
  subst hxy
  by_cases hpx : p x = true <;> simp [hpx, hid]
  · exact hb x hx
  · exact hb x hx

/-- set_conv_updated_at keeps conversation ids well-formed. -/
theorem conv_ids_ok_set_updated (d : DB) (cid : Nat) (h : conv_ids_ok d) :
    conv_ids_ok (set_conv_updated_at d cid) :=
  ⟨pairwise_ids_updRows (fun c => c.id == cid)
    (fun c => { c with updated_at := d.clock }) (fun _ => rfl) d.conversations h.1,
   bound_ids_updRows (fun c => c.id == cid)
    (fun c => { c with updated_at := d.clock }) (fun _ => rfl) d.conversations _ h.2⟩

/-- set_conv_title keeps conversation ids well-formed. -/
theorem conv_ids_ok_set_title (d : DB) (cid : Nat) (t : String) (h : conv_ids_ok d) :
    conv_ids_ok (set_conv_title d cid t) :=
  ⟨pairwise_ids_updRows (fun c => c.id == cid)
    (fun c => { c with title := some t }) (fun _ => rfl) d.conversations h.1,
   bound_ids_updRows (fun c => c.id == cid)
    (fun c => { c with title := some t }) (fun _ => rfl) d.conversations _ h.2⟩

/-- update_conversation_activity keeps conversation ids well-formed. -/
theorem conv_ids_ok_uca (d : DB) (cid : Nat) (marg : Option String)
    (h : conv_ids_ok d) : conv_ids_ok (update_conversation_activity d cid marg) := by
  unfold update_conversation_activity
  cases marg with
  | none => exact conv_ids_ok_set_updated d cid h
  | some m =>
    by_cases hm : (m == "") = true
    · simp only [hm, if_true]
      exact conv_ids_ok_set_updated d cid h
    · simp only [(by simpa using hm : (m == "") = false), Bool.false_eq_true, if_false]
      cases hfid : (set_conv_updated_at d cid).conversations.find? (fun c => c.id == cid) with
      | none => exact conv_ids_ok_set_updated d cid h
      | some c =>
        by_cases ht : title_falsy c.title = true
        · simp only [ht, if_true]
          exact conv_ids_ok_set_title _ cid _ (conv_ids_ok_set_updated d cid h)
        · simp only [ht, Bool.false_eq_true, if_false]
          exact conv_ids_ok_set_updated d cid h

/-- add_chat_message keeps conversation ids well-formed. -/
theorem conv_ids_ok_add (db : DB) (sid sender msg : String) (u : Nat)
    (h : conv_ids_ok db) : conv_ids_ok (add_chat_message db sid sender msg u).2 := by
  cases hf : findConv db sid u with
  | some c =>
    rw [add_chat_message_existing db sid sender msg u c hf]
    exact conv_ids_ok_uca (with_msg db c.id sid sender msg) _ _ ⟨h.1, h.2⟩
  | none =>
    rw [add_chat_message_new db sid sender msg u hf]
    apply conv_ids_ok_uca
      (with_msg (db_after_create db sid u) db.next_conversation_id sid sender msg)
    constructor
    · apply List.pairwise_append.mpr
      refine ⟨h.1, List.pairwise_singleton _ _, ?_⟩
      intro a ha b hb
      rcases List.mem_singleton.mp hb with rfl
      exact Nat.ne_of_lt (h.2 a ha)
    · intro x hx
      rcases List.mem_append.mp hx with hx | hx
      · exact Nat.lt_succ_of_lt (h.2 x hx)
      · rcases List.mem_singleton.mp hx with rfl
        exact Nat.lt_succ_self _

/-- The derived title of a non-empty message is non-empty. -/
theorem derive_title_ne (m : String) (hm : m ≠ "") : (derive_title m == "") = false := by
  apply beq_eq_false_iff_ne.mpr
  intro hEq
  obtain ⟨d⟩ := m
  cases d with
  | nil => exact hm rfl
  | cons a t =>
    have hd := congrArg String.data hEq
    rw [show (derive_title ⟨a :: t⟩).data = ((a :: t).take 50) ++
        (if (String.mk (a :: t)).length > 50 then "..." else "").data from by
      unfold derive_title; rw [strData_append]] at hd
    rw [show (a :: t).take 50 = a :: t.take 49 from rfl] at hd
    exact absurd hd (List.cons_ne_nil _ _)

/-- Storing a first user message in a conversation whose title is falsy (or
which does not exist yet) sets the derived title. -/
theorem add_user_sets_title (db : DB) (sid m : String) (u : Nat)
    (hwf : conv_ids_ok db) (hm : (m == "") = false)
    (htitle : ∀ c, findConv db sid u = some c → title_falsy c.title = true) :
    ∃ c1, findConv (add_chat_message db sid "user" m u).2 sid u = some c1 ∧
      c1.title = some (derive_title m) := by
  cases hf : findConv db sid u with
  | some c =>
    rw [add_chat_message_existing db sid "user" m u c hf,
      if_pos (show ("user" == "user") = true from rfl)]
    exact ⟨_, uca_sets_title (with_msg db c.id sid "user" m) c.id m sid u hm
      hwf.1 c hf rfl (htitle c hf), rfl⟩
  | none =>
    rw [add_chat_message_new db sid "user" m u hf,
      if_pos (show ("user" == "user") = true from rfl)]
    have hp : (db.conversations ++ [new_conv db sid u]).Pairwise
        (fun a b => a.id ≠ b.id) := by
      apply List.pairwise_append.mpr
      refine ⟨hwf.1, List.pairwise_singleton _ _, ?_⟩
      intro a ha b hb
      rcases List.mem_singleton.mp hb with rfl
      exact Nat.ne_of_lt (hwf.2 a ha)
    have hfc : (db.conversations ++ [new_conv db sid u]).find?
        (fun c => c.session_id == sid && c.user_id == u) = some (new_conv db sid u) := by
      rw [find?_append _ _ _ hf]
      simp [new_conv]
    exact ⟨_, uca_sets_title
      (with_msg (db_after_create db sid u) db.next_conversation_id sid "user" m)
      db.next_conversation_id m sid u hm hp (new_conv db sid u) hfc rfl rfl, rfl⟩

/-- Storing any further message leaves an existing non-empty title as it is. -/
theorem add_keeps_title (db : DB) (sid sender msg : String) (u : Nat)
    (hwf : conv_ids_ok db) (c : Conversation) (hfind : findConv db sid u = some c)
    (T : String) (ht : c.title = some T) (hT : (T == "") = false) :
    ∃ c2, findConv (add_chat_message db sid sender msg u).2 sid u = some c2 ∧
      c2.title = some T := by
  rw [add_chat_message_existing db sid sender msg u c hfind]
  exact ⟨_, uca_keeps_title (with_msg db c.id sid sender msg) c.id _ sid u
    hwf.1 c hfind rfl T ht hT, ht⟩

/-- A non-empty title survives any sequence of further messages. -/
theorem fold_keeps_title (sid : String) (u : Nat) (T : String) (hT : (T == "") = false)
    (rest : List (String × String)) :
    ∀ db : DB, conv_ids_ok db →
      (∃ c, findConv db sid u = some c ∧ c.title = some T) →
      ∃ c2, findConv (fold_messages db sid u rest) sid u = some c2 ∧
        c2.title = some T := by
  induction rest with
  | nil => intro db _ h; exact h
  | cons p rs ih =>
    intro db hwf h
    obtain ⟨c, hfind, ht⟩ := h
    exact ih _ (conv_ids_ok_add db sid p.1 p.2 u hwf)
      (add_keeps_title db sid p.1 p.2 u hwf c hfind T ht hT)

/-- C5: after the first (non-empty) user message stored into a conversation
whose title is null — or which does not exist yet, the lazy-creation path
of add_chat_message — the conversation's title becomes the first 50
characters of that message (the message itself when it is at most 50
characters, the 50-character cut with the "..." ellipsis marker when it is
longer), and no later message of the session, from any sender, ever
changes that title. -/
theorem C5_title_derivation (db : DB) (sid : String) (u : Nat) (m : String)
    (hm : m ≠ "") (hwf : conv_ids_ok db)
    (htitle : ∀ c, findConv db sid u = some c → title_falsy c.title = true)
    (rest : List (String × String)) :
    (m.length ≤ 50 → derive_title m = m) ∧
    (m.length > 50 → derive_title m = ⟨m.data.take 50⟩ ++ "...") ∧
    (∃ c1, findConv (add_chat_message db sid "user" m u).2 sid u = some c1 ∧
      c1.title = some (derive_title m)) ∧
    (∃ c2, findConv (fold_messages (add_chat_message db sid "user" m u).2 sid u rest)
        sid u = some c2 ∧ c2.title = some (derive_title m)) := by
  have hm' : (m == "") = false := by
    cases hb : m == "" with
    | false => rfl
    | true => exact absurd (by simpa using hb) hm
  refine ⟨?_, ?_, ?_, ?_⟩
  · intro hle
    unfold derive_title
    rw [if_neg (by omega)]
    rw [List.take_of_length_le hle]
    obtain ⟨d⟩ := m
    exact congrArg String.mk (List.append_nil d)
  · intro hgt
    unfold derive_title
    rw [if_pos hgt]
  · exact add_user_sets_title db sid m u hwf hm' htitle
  · exact fold_keeps_title sid u (derive_title m) (derive_title_ne m hm) rest _
      (conv_ids_ok_add db sid "user" m u hwf)
      (add_user_sets_title db sid m u hwf hm' htitle)

/-- Witness for C5_title_derivation: first user message "Hello" on the fresh
database titles conversation "s1" as "Hello", and a second user message
"World" leaves the title "Hello". -/
theorem C5_witness :
    derive_title "Hello" = "Hello" ∧
    (findConv (fold_messages (add_chat_message emptyDB "s1" "user" "Hello" 1).2 "s1" 1
        [("user", "World")]) "s1" 1).map Conversation.title = some (some "Hello") := by
  have h := C5_title_derivation emptyDB "s1" 1 "Hello" (by decide)
    ⟨List.Pairwise.nil, fun x hx => absurd hx (List.not_mem_nil x)⟩
    (fun c hc => Option.noConfusion hc) [("user", "World")]
  have htitle : derive_title "Hello" = "Hello" := h.1 (by decide)
  refine ⟨htitle, ?_⟩
  obtain ⟨c2, hf2, ht2⟩ := h.2.2.2
  rw [hf2]
  rw [show Option.map Conversation.title (some c2) = some c2.title from rfl, ht2, htitle]
